import Mathlib

/-!
Verification of the `bookable_event_logger` structured-event publishing facade
(`src/python/bookable_event_logger/logger.py`) against its specification.

The Python module is shallowly embedded: configuration resolution, envelope
construction, the publish facade, the no-op logger and the process-wide
singleton lifecycle become total Lean functions.  Nondeterministic inputs of
the source (freshly generated UUID strings, the current wall-clock time) and
the external Pub/Sub transport are passed in explicitly as parameters, so
every source operation is a pure function of its inputs.
-/

/-! ## Character and digit helpers -/

/-- The double-quote character. -/
def quoteChar : Char := Char.ofNat 34

/-- The backslash character. -/
def backslashChar : Char := Char.ofNat 92

/-- The opening curly brace character. -/
def lbrace : Char := Char.ofNat 123

/-- The closing curly brace character. -/
def rbrace : Char := Char.ofNat 125

/-- Decimal digits of a natural number, most significant first. -/
def natDigits (n : Nat) : List Char :=
  if n < 10 then [Char.ofNat (48 + n)]
  else natDigits (n / 10) ++ [Char.ofNat (48 + n % 10)]
termination_by n
decreasing_by
  exact Nat.div_lt_self (by omega) (by omega)

/-- Decimal rendering of an integer, mirroring Python `str` on `int`. -/
def intChars (n : Int) : List Char :=
  if n < 0 then '-' :: natDigits n.natAbs else natDigits n.toNat

/-- Hexadecimal digit character for a value below 16 (lowercase letters). -/
def hexDigitChar (n : Nat) : Char :=
  if n < 10 then Char.ofNat (48 + n) else Char.ofNat (87 + n)

/-- Test for a lowercase hexadecimal digit character. -/
def isHexDigit (c : Char) : Bool :=
  c.isDigit || ('a' ≤ c && c ≤ 'f')

/-- Left-pad the decimal digits of `n` with zeros to width `w`, mirroring
Python fixed-width integer formatting such as `%04d`. -/
def padZeros (w n : Nat) : List Char :=
  List.replicate (w - (natDigits n).length) '0' ++ natDigits n

/-! ## JSON values and the serializer

The source JSON-encodes the `actor` and `data` mappings (and the whole
envelope) with `json.dumps`.  `Json` models the Python values that can appear
there; the serializer below mirrors `json.dumps` with its default separators
`", "` and `": "`.  String escaping mirrors `json.dumps` for the quote, the
backslash and control characters; characters at or above U+0020 other than
quote and backslash are emitted raw (raw non-ASCII output is also valid JSON,
so this difference from the default `ensure_ascii=True` does not affect any
syntactic-validity statement). -/

inductive Json where
  | null : Json
  | bool : Bool → Json
  | num : Int → Json
  | str : String → Json
  | arr : List Json → Json
  | obj : List (String × Json) → Json

/-- A Python dict with string keys, as passed for `actor` and `data`. -/
abbrev JsonObj := List (String × Json)

/-- Serialization of one character inside a JSON string literal. -/
def dumpChar (c : Char) : List Char :=
  if c = quoteChar then [backslashChar, quoteChar]
  else if c = backslashChar then [backslashChar, backslashChar]
  else if c = Char.ofNat 10 then [backslashChar, 'n']
  else if c = Char.ofNat 9 then [backslashChar, 't']
  else if c = Char.ofNat 13 then [backslashChar, 'r']
  else if c = Char.ofNat 8 then [backslashChar, 'b']
  else if c = Char.ofNat 12 then [backslashChar, 'f']
  else if c.toNat < 32 then
    [backslashChar, 'u', '0', '0', hexDigitChar (c.toNat / 16), hexDigitChar (c.toNat % 16)]
  else [c]

/-- Serialization of the body of a JSON string literal. -/
def dumpStringBody : List Char → List Char
  | [] => []
  | c :: cs => dumpChar c ++ dumpStringBody cs

/-- Serialization of a JSON string literal, quotes included. -/
def dumpStringChars (s : String) : List Char :=
  quoteChar :: (dumpStringBody s.data ++ [quoteChar])

mutual

/-- Characters of the `json.dumps` output for one value. -/
def dumpsV : Json → List Char
  | Json.null => ['n', 'u', 'l', 'l']
  | Json.bool true => ['t', 'r', 'u', 'e']
  | Json.bool false => ['f', 'a', 'l', 's', 'e']
  | Json.num n => intChars n
  | Json.str s => dumpStringChars s
  | Json.arr [] => ['[', ']']
  | Json.arr (x :: xs) => '[' :: (dumpsItems x xs ++ [']'])
  | Json.obj [] => [lbrace, rbrace]
  | Json.obj (kv :: kvs) => lbrace :: (dumpsMembers kv kvs ++ [rbrace])
termination_by j => sizeOf j

/-- Comma-separated serialization of a nonempty list of array items. -/
def dumpsItems : Json → List Json → List Char
  | x, [] => dumpsV x
  | x, y :: ys => dumpsV x ++ (',' :: ' ' :: dumpsItems y ys)
termination_by x xs => 1 + sizeOf x + sizeOf xs

/-- Comma-separated serialization of a nonempty list of object members. -/
def dumpsMembers : String × Json → List (String × Json) → List Char
  | (k, v), [] => dumpStringChars k ++ (':' :: ' ' :: dumpsV v)
  | (k, v), kv2 :: kvs =>
    (dumpStringChars k ++ (':' :: ' ' :: dumpsV v)) ++ (',' :: ' ' :: dumpsMembers kv2 kvs)
termination_by kv kvs => 1 + sizeOf kv + sizeOf kvs

end

/-- The model of Python `json.dumps`. -/
def Json.dumps (j : Json) : String := String.mk (dumpsV j)

/-! ## A JSON grammar

`JGram` is a sub-grammar of RFC 8259 JSON text fixed to the separators that
`json.dumps` emits (`", "` between items, `": "` after keys) and with no
optional whitespace.  Membership in any category therefore implies that the
character list is syntactically valid JSON of that category. -/

/-- Grammar categories: a value, the body of a string literal, a nonempty
item list of an array, a nonempty member list of an object, and an object
value specifically. -/
inductive JKind where
  | val : JKind
  | strBody : JKind
  | items : JKind
  | members : JKind
  | objv : JKind

inductive JGram : JKind → List Char → Prop where
  | jnull : JGram JKind.val ['n', 'u', 'l', 'l']
  | jtrue : JGram JKind.val ['t', 'r', 'u', 'e']
  | jfalse : JGram JKind.val ['f', 'a', 'l', 's', 'e']
  | jnum : ∀ sgn ds, (sgn = ([] : List Char) ∨ sgn = ['-']) → ds ≠ [] →
      (∀ c ∈ ds, c.isDigit = true) → JGram JKind.val (sgn ++ ds)
  | jstr : ∀ cs, JGram JKind.strBody cs → JGram JKind.val (quoteChar :: (cs ++ [quoteChar]))
  | jarrNil : JGram JKind.val ['[', ']']
  | jarrCons : ∀ cs, JGram JKind.items cs → JGram JKind.val ('[' :: (cs ++ [']']))
  | jofObj : ∀ cs, JGram JKind.objv cs → JGram JKind.val cs
  | jobjNil : JGram JKind.objv [lbrace, rbrace]
  | jobjCons : ∀ cs, JGram JKind.members cs → JGram JKind.objv (lbrace :: (cs ++ [rbrace]))
  | sNil : JGram JKind.strBody []
  | sChar : ∀ c cs, c ≠ quoteChar → c ≠ backslashChar → 32 ≤ c.toNat →
      JGram JKind.strBody cs → JGram JKind.strBody (c :: cs)
  | sEsc : ∀ c cs, c ∈ [quoteChar, backslashChar, '/', 'b', 'f', 'n', 'r', 't'] →
      JGram JKind.strBody cs → JGram JKind.strBody (backslashChar :: (c :: cs))
  | sEscU : ∀ h1 h2 h3 h4 cs, isHexDigit h1 = true → isHexDigit h2 = true →
      isHexDigit h3 = true → isHexDigit h4 = true → JGram JKind.strBody cs →
      JGram JKind.strBody (backslashChar :: 'u' :: h1 :: h2 :: h3 :: h4 :: cs)
  | itemsOne : ∀ v, JGram JKind.val v → JGram JKind.items v
  | itemsCons : ∀ v rest, JGram JKind.val v → JGram JKind.items rest →
      JGram JKind.items (v ++ (',' :: ' ' :: rest))
  | memOne : ∀ kb v, JGram JKind.strBody kb → JGram JKind.val v →
      JGram JKind.members (quoteChar :: (kb ++ (quoteChar :: ':' :: ' ' :: v)))
  | memCons : ∀ kb v rest, JGram JKind.strBody kb → JGram JKind.val v →
      JGram JKind.members rest →
      JGram JKind.members (quoteChar :: (kb ++ (quoteChar :: ':' :: ' ' :: (v ++ (',' :: ' ' :: rest)))))

/-- A string is a syntactically valid JSON object text. -/
def IsJsonObjectString (s : String) : Prop := JGram JKind.objv s.data

/-! ## Datetimes and the created_at format

`datetime.now(timezone.utc).isoformat()` renders
`YYYY-MM-DDTHH:MM:SS[.ffffff]+00:00` (the fractional part is omitted when the
microsecond field is zero); the source then applies
`.replace("+00:00", "Z")`. -/

/-- A wall-clock instant as the aware UTC `datetime` the source reads. -/
structure PyDateTime where
  year : Nat
  month : Nat
  day : Nat
  hour : Nat
  minute : Nat
  second : Nat
  microsecond : Nat
deriving DecidableEq

/-- The characters of the UTC offset suffix `+00:00`. -/
def plus00 : List Char := ['+', '0', '0', ':', '0', '0']

/-- Characters of `isoformat()` output before the UTC offset. -/
def isoBase (t : PyDateTime) : List Char :=
  padZeros 4 t.year ++ ['-'] ++ padZeros 2 t.month ++ ['-'] ++ padZeros 2 t.day ++ ['T'] ++
  padZeros 2 t.hour ++ [':'] ++ padZeros 2 t.minute ++ [':'] ++ padZeros 2 t.second ++
  (if t.microsecond = 0 then [] else '.' :: padZeros 6 t.microsecond)

/-- Characters of the full `isoformat()` output of an aware UTC datetime. -/
def isoformatChars (t : PyDateTime) : List Char := isoBase t ++ plus00

/-- The model of `datetime.isoformat` on an aware UTC datetime. -/
def PyDateTime.isoformat (t : PyDateTime) : String := String.mk (isoformatChars t)

/-- Python `str.replace` on character lists: replaces every non-overlapping
occurrence of `pat` from the left (for nonempty `pat`). -/
def pyReplace (pat rep : List Char) (s : List Char) : List Char :=
  match s with
  | [] => []
  | c :: rest =>
    if _h : pat ≠ [] ∧ pat.isPrefixOf (c :: rest) = true then
      rep ++ pyReplace pat rep ((c :: rest).drop pat.length)
    else
      c :: pyReplace pat rep rest
termination_by s.length
decreasing_by
  · have hlen : 0 < pat.length := List.length_pos.mpr _h.1
    simp only [List.length_drop, List.length_cons]
    omega
  · simp

/-- Python `str.replace` on strings. -/
def pyStrReplace (s pat rep : String) : String :=
  String.mk (pyReplace pat.data rep.data s.data)

/-! ## An ISO-8601 UTC shape checker -/

/-- Consume exactly `n` decimal digits. -/
def chompDigits : Nat → List Char → Option (List Char)
  | 0, cs => some cs
  | _ + 1, [] => none
  | n + 1, c :: cs => if c.isDigit then chompDigits n cs else none

/-- Consume exactly the character `a`. -/
def chompLit (a : Char) : List Char → Option (List Char)
  | [] => none
  | c :: cs => if c = a then some cs else none

/-- Count and consume a maximal run of leading decimal digits. -/
def takeDigitsCount : List Char → Nat × List Char
  | [] => (0, [])
  | c :: cs =>
    if c.isDigit then
      let p := takeDigitsCount cs
      (p.1 + 1, p.2)
    else (0, c :: cs)

/-- Consume the date part `YYYY-MM-DD`. -/
def chompDatePart (cs : List Char) : Option (List Char) :=
  (chompDigits 4 cs).bind (chompLit '-') |>.bind (chompDigits 2) |>.bind (chompLit '-')
    |>.bind (chompDigits 2)

/-- Consume the time part `HH:MM:SS`. -/
def chompTimePart (cs : List Char) : Option (List Char) :=
  (chompDigits 2 cs).bind (chompLit ':') |>.bind (chompDigits 2) |>.bind (chompLit ':')
    |>.bind (chompDigits 2)

/-- Consume an optional fractional-seconds part of one to six digits. -/
def chompFrac (cs : List Char) : Option (List Char) :=
  match cs with
  | [] => some []
  | c :: more =>
    if c = '.' then
      let p := takeDigitsCount more
      if 1 ≤ p.1 && p.1 ≤ 6 then some p.2 else none
    else some (c :: more)

/-- Syntactic check that a string has the UTC ISO-8601 Zulu shape
`YYYY-MM-DDTHH:MM:SS`, optionally followed by a fraction of one to six
digits, terminated by `Z`. -/
def isoScan (cs : List Char) : Option (List Char) :=
  (chompDatePart cs).bind (chompLit 'T') |>.bind chompTimePart |>.bind chompFrac

def isIsoUtcZ (s : String) : Bool :=
  match isoScan s.data with
  | some rest => rest == ['Z']
  | none => false

/-- Python `str.endswith` on character lists. -/
def endsWithChars (s t : List Char) : Bool :=
  s.drop (s.length - t.length) == t

/-- Python `str.endswith`. -/
def strEndsWith (s suffx : String) : Bool := endsWithChars s.data suffx.data

/-! ## Python truthiness helpers

`a or b` in the source operates on optional strings and dicts; Python treats
`None`, the empty string and the empty dict as falsy. -/

/-- Python `a or b` where `a` is an optional string and `b` a string. -/
def pyOrStr (a : Option String) (b : String) : String :=
  match a with
  | some s => if s = "" then b else s
  | none => b

/-- Python `a or b` where both sides are optional strings. -/
def pyOrOptStr (a b : Option String) : Option String :=
  match a with
  | some s => if s = "" then b else some s
  | none => b

/-- Python `a or {}` for an optional dict. -/
def pyOrObj (a : Option JsonObj) : JsonObj :=
  match a with
  | some l => if l.isEmpty then [] else l
  | none => []

/-- Python truthiness of an optional string (`not value` in the source is the
negation of this). -/
def truthyStr : Option String → Bool
  | some s => if s = "" then false else true
  | none => false

/-! ## The embedded logger module

`EnvVars` models the process environment read through `os.getenv`; the
publisher client is modelled by a `publish` function passed to each call, and
the two `uuid.uuid4()` draws and the `datetime.now` reading of a call are
passed as explicit arguments. -/

/-- The environment variables the module reads. -/
structure EnvVars where
  LOG_GCP_PROJECT : Option String
  LOG_TOPIC : Option String
  LOG_ENVIRONMENT : Option String
  LOG_SERVICE_NAME : Option String
  LOG_GCP_CREDENTIALS : Option String
deriving DecidableEq

/-- An environment with none of the variables set. -/
def emptyEnv : EnvVars := ⟨none, none, none, none, none⟩

/-- The state of a constructed `EventLogger`, holding the resolved
configuration attributes exactly as `__init__` stores them. -/
structure EventLogger where
  project_id : Option String
  topic_name : Option String
  environment : Option String
  service_name : Option String
  credentials_path : Option String
  topic_path : String
deriving DecidableEq

/-- An opaque handle standing for a `pubsub_v1` publish future. -/
structure PublishFuture where
  id : Nat
deriving DecidableEq

/-- The model of `EventLogger.__init__`: resolve each setting from the
explicit parameter with fallback to the environment, batch-collect the
missing required settings, and either raise `ValueError` (the `error` case,
carrying the exception message) or produce the constructed instance. -/
def EventLogger.init (project_id topic_name environment service_name credentials_path :
    Option String) (env : EnvVars) : Except String EventLogger :=
  let pid := pyOrOptStr project_id env.LOG_GCP_PROJECT
  let tn := pyOrOptStr topic_name (some (env.LOG_TOPIC.getD "events"))
  let envname := pyOrOptStr environment env.LOG_ENVIRONMENT
  let sn := pyOrOptStr service_name env.LOG_SERVICE_NAME
  let cp := pyOrOptStr credentials_path env.LOG_GCP_CREDENTIALS
  let required : List (String × Option String) :=
    [("LOG_GCP_PROJECT / project_id", pid),
     ("LOG_TOPIC / topic_name", tn),
     ("LOG_ENVIRONMENT / environment", envname),
     ("LOG_SERVICE_NAME / service_name", sn),
     ("LOG_GCP_CREDENTIALS / credentials_path", cp)]
  let missing := required.filterMap (fun p => if truthyStr p.2 then none else some p.1)
  if missing.isEmpty then
    Except.ok
      { project_id := pid, topic_name := tn, environment := envname, service_name := sn,
        credentials_path := cp,
        topic_path := "projects/" ++ pid.getD "" ++ "/topics/" ++ tn.getD "" }
  else
    Except.error ("Missing required config for EventLogger: " ++ String.intercalate ", " missing)

/-- The canonical event envelope, with the fields of the dict built by
`_build_event`.  `service` and `environment` are kept optional because the
attributes they are copied from are `Optional[str]`-typed. -/
structure Envelope where
  event_id : String
  correlation_id : String
  service : Option String
  event_type : String
  level : String
  environment : Option String
  created_at : String
  actor : String
  data : String
deriving DecidableEq

/-- JSON value of an optional string attribute (`None` becomes `null`). -/
def optStrToJson : Option String → Json
  | none => Json.null
  | some s => Json.str s

/-- The envelope as the JSON object `json.dumps` serializes for the payload,
fields in insertion order. -/
def Envelope.toJson (e : Envelope) : Json :=
  Json.obj
    [("event_id", Json.str e.event_id),
     ("correlation_id", Json.str e.correlation_id),
     ("service", optStrToJson e.service),
     ("event_type", Json.str e.event_type),
     ("level", Json.str e.level),
     ("environment", optStrToJson e.environment),
     ("created_at", Json.str e.created_at),
     ("actor", Json.str e.actor),
     ("data", Json.str e.data)]

/-- The model of `EventLogger._build_event`.  `eventId` and `freshCid` are
the two `uuid.uuid4()` draws of the call (the second is used only when no
truthy `correlation_id` is supplied) and `now` is the `datetime.now` reading. -/
def EventLogger._build_event (self : EventLogger) (event_type level : String)
    (data : Option JsonObj) (service : Option String) (correlation_id : Option String)
    (actor : Option JsonObj) (eventId freshCid : String) (now : PyDateTime) : Envelope :=
  { event_id := eventId
    correlation_id := pyOrStr correlation_id freshCid
    service := pyOrOptStr service self.service_name
    event_type := event_type
    level := level
    environment := self.environment
    created_at := pyStrReplace now.isoformat "+00:00" "Z"
    actor := Json.dumps (Json.obj (pyOrObj actor))
    data := Json.dumps (Json.obj (pyOrObj data)) }

/-- The model of `EventLogger.log_event`: build the envelope, serialize the
payload and publish; a raising transport (`Except.error`) is caught and
turned into a `None` future, so the call itself always returns. -/
def EventLogger.log_event (self : EventLogger)
    (publish : String → String → Except String PublishFuture)
    (event_type level : String) (data : Option JsonObj)
    (service correlation_id : Option String) (actor : Option JsonObj)
    (eventId freshCid : String) (now : PyDateTime) : Envelope × Option PublishFuture :=
  let event := self._build_event event_type level data service correlation_id actor
    eventId freshCid now
  let payload := Json.dumps event.toJson
  match publish self.topic_path payload with
  | Except.ok future => (event, some future)
  | Except.error _ => (event, none)

/-- The model of the generic `EventLogger.log` method. -/
def EventLogger.log (self : EventLogger)
    (publish : String → String → Except String PublishFuture)
    (level event_type : String) (correlation_id : Option String) (data : Option JsonObj)
    (actor : Option JsonObj) (service : Option String)
    (eventId freshCid : String) (now : PyDateTime) : Envelope × Option PublishFuture :=
  self.log_event publish event_type level (some (pyOrObj data)) service correlation_id actor
    eventId freshCid now

/-- The model of `EventLogger.debug`. -/
def EventLogger.debug (self : EventLogger)
    (publish : String → String → Except String PublishFuture)
    (event_type : String) (correlation_id : Option String) (data : Option JsonObj)
    (actor : Option JsonObj) (service : Option String)
    (eventId freshCid : String) (now : PyDateTime) : Envelope × Option PublishFuture :=
  self.log_event publish event_type "debug" (some (pyOrObj data)) service correlation_id actor
    eventId freshCid now

/-- The model of `EventLogger.info`. -/
def EventLogger.info (self : EventLogger)
    (publish : String → String → Except String PublishFuture)
    (event_type : String) (correlation_id : Option String) (data : Option JsonObj)
    (actor : Option JsonObj) (service : Option String)
    (eventId freshCid : String) (now : PyDateTime) : Envelope × Option PublishFuture :=
  self.log_event publish event_type "info" (some (pyOrObj data)) service correlation_id actor
    eventId freshCid now

/-- The model of `EventLogger.warning`. -/
def EventLogger.warning (self : EventLogger)
    (publish : String → String → Except String PublishFuture)
    (event_type : String) (correlation_id : Option String) (data : Option JsonObj)
    (actor : Option JsonObj) (service : Option String)
    (eventId freshCid : String) (now : PyDateTime) : Envelope × Option PublishFuture :=
  self.log_event publish event_type "warning" (some (pyOrObj data)) service correlation_id actor
    eventId freshCid now

/-- The model of `EventLogger.error`. -/
def EventLogger.error (self : EventLogger)
    (publish : String → String → Except String PublishFuture)
    (event_type : String) (correlation_id : Option String) (data : Option JsonObj)
    (actor : Option JsonObj) (service : Option String)
    (eventId freshCid : String) (now : PyDateTime) : Envelope × Option PublishFuture :=
  self.log_event publish event_type "error" (some (pyOrObj data)) service correlation_id actor
    eventId freshCid now

/-- The no-op logger: `__getattr__` serves every method name with a function
that ignores its arguments. -/
structure NoOpEventLogger where
deriving DecidableEq

/-- Any method call on a `NoOpEventLogger` returns the empty dict and no
future. -/
def NoOpEventLogger.call (_self : NoOpEventLogger) (_method : String) (_args : List Json) :
    Json × Option PublishFuture :=
  (Json.obj [], none)

/-- The value held by the module-global `_event_logger` once it is not
`None`: only `init_event_logger` writes it, always with an `EventLogger`, so
the holder state is `Option EventLogger`. -/
inductive ActiveLogger where
  | real (l : EventLogger) : ActiveLogger
  | noop (n : NoOpEventLogger) : ActiveLogger
deriving DecidableEq

/-- The model of `get_event_logger` as a function of the holder state. -/
def get_event_logger (st : Option EventLogger) : ActiveLogger :=
  match st with
  | none => ActiveLogger.noop ⟨⟩
  | some l => ActiveLogger.real l

/-- The model of `init_event_logger` as a state transition on the holder:
on success the holder is replaced and the new logger returned, and on a
constructor raise the exception propagates before the assignment, leaving
the holder unchanged. -/
def init_event_logger (project_id topic_name environment service_name credentials_path :
    Option String) (env : EnvVars) (st : Option EventLogger) :
    Option EventLogger × Except String EventLogger :=
  match EventLogger.init project_id topic_name environment service_name credentials_path env with
  | Except.ok l => (some l, Except.ok l)
  | Except.error e => (st, Except.error e)

/-! ## Substring search and sample values -/

/-- Substring occurrence test on character lists. -/
def hasSubstr (s pat : List Char) : Bool :=
  match s with
  | [] => pat.isEmpty
  | _ :: rest => pat.isPrefixOf s || hasSubstr rest pat

/-- Python `pat in s` on strings. -/
def strContains (s pat : String) : Bool := hasSubstr s.data pat.data

/-- The logger that `EventLogger.init (some "p") none (some "prod") (some "svc")
(some "/creds") emptyEnv` constructs. -/
def sampleLogger : EventLogger :=
  { project_id := some "p", topic_name := some "events", environment := some "prod",
    service_name := some "svc", credentials_path := some "/creds",
    topic_path := "projects/p/topics/events" }

/-- A sample wall-clock reading. -/
def sampleDT : PyDateTime := ⟨2026, 10, 12, 8, 30, 5, 123456⟩

/-- A transport whose publish always raises. -/
def failPublish : String → String → Except String PublishFuture :=
  fun _ _ => Except.error "boom"

theorem charOfNat_digit_isDigit (d : Nat) (hd : d < 10) :
    (Char.ofNat (48 + d)).isDigit = true := by
  interval_cases d <;> decide

theorem natDigits_ne_nil (n : Nat) : natDigits n ≠ [] := by
  unfold natDigits
  split
  · simp
  · simp

theorem natDigits_all_digit (n : Nat) : ∀ c ∈ natDigits n, c.isDigit = true := by
  induction n using Nat.strong_induction_on with
  | _ n ih =>
    unfold natDigits
    split
    · intro c hc
      simp only [List.mem_singleton] at hc
      subst hc
      exact charOfNat_digit_isDigit n (by omega)
    · intro c hc
      simp only [List.mem_append, List.mem_singleton] at hc
      rcases hc with hc | hc
      · exact ih (n / 10) (Nat.div_lt_self (by omega) (by omega)) c hc
      · subst hc
        exact charOfNat_digit_isDigit (n % 10) (Nat.mod_lt _ (by omega))

theorem natDigits_length_le (w n : Nat) (hw : 0 < w) (hn : n < 10 ^ w) :
    (natDigits n).length ≤ w := by
  induction n using Nat.strong_induction_on generalizing w with
  | _ n ih =>
    unfold natDigits
    split
    · simpa using hw
    · rename_i hbig
      have hw2 : 2 ≤ w := by
        by_contra hcon
        have : w = 1 := by omega
        subst this
        simp at hn
        omega
      have hdiv : n / 10 < 10 ^ (w - 1) := by
        have h1 : 10 ^ w = 10 ^ (w - 1) * 10 := by
          have : w - 1 + 1 = w := by omega
          calc 10 ^ w = 10 ^ (w - 1 + 1) := by rw [this]
          _ = 10 ^ (w - 1) * 10 := by rw [pow_succ]
        apply Nat.div_lt_of_lt_mul
        omega
      have := ih (n / 10) (Nat.div_lt_self (by omega) (by omega)) (w - 1) (by omega) hdiv
      simp only [List.length_append, List.length_singleton]
      omega

theorem padZeros_all_digit (w n : Nat) : ∀ c ∈ padZeros w n, c.isDigit = true := by
  intro c hc
  simp only [padZeros, List.mem_append, List.mem_replicate] at hc
  rcases hc with hc | hc
  · rw [hc.2]; decide
  · exact natDigits_all_digit n c hc

theorem padZeros_length (w n : Nat) (hw : 0 < w) (hn : n < 10 ^ w) :
    (padZeros w n).length = w := by
  have := natDigits_length_le w n hw hn
  simp only [padZeros, List.length_append, List.length_replicate]
  omega

theorem hexDigitChar_isHex (n : Nat) (h : n < 16) : isHexDigit (hexDigitChar n) = true := by
  interval_cases n <;> decide

theorem dumpChar_strBody (c : Char) (cs : List Char) (h : JGram JKind.strBody cs) :
    JGram JKind.strBody (dumpChar c ++ cs) := by
  unfold dumpChar
  split
  · rename_i hc
    exact JGram.sEsc quoteChar cs (by simp) h
  · split
    · exact JGram.sEsc backslashChar cs (by simp) h
    · split
      · exact JGram.sEsc 'n' cs (by simp) h
      · split
        · exact JGram.sEsc 't' cs (by simp) h
        · split
          · exact JGram.sEsc 'r' cs (by simp) h
          · split
            · exact JGram.sEsc 'b' cs (by simp) h
            · split
              · exact JGram.sEsc 'f' cs (by simp) h
              · split
                · rename_i hlt
                  exact JGram.sEscU '0' '0' (hexDigitChar (c.toNat / 16))
                    (hexDigitChar (c.toNat % 16)) cs (by decide) (by decide)
                    (hexDigitChar_isHex _ (by omega))
                    (hexDigitChar_isHex _ (Nat.mod_lt _ (by omega))) h
                · rename_i h1 h2 h3 h4 h5 h6 h7 h8
                  exact JGram.sChar c cs h1 h2 (by omega) h

theorem dumpStringBody_strBody (l : List Char) : JGram JKind.strBody (dumpStringBody l) := by
  induction l with
  | nil => exact JGram.sNil
  | cons c cs ih =>
    rw [dumpStringBody]
    exact dumpChar_strBody c (dumpStringBody cs) ih

theorem intChars_val (n : Int) : JGram JKind.val (intChars n) := by
  unfold intChars
  split
  · have : ('-' :: natDigits n.natAbs) = ['-'] ++ natDigits n.natAbs := rfl
    rw [this]
    exact JGram.jnum ['-'] (natDigits n.natAbs) (Or.inr rfl) (natDigits_ne_nil _)
      (natDigits_all_digit _)
  · have : natDigits n.toNat = [] ++ natDigits n.toNat := rfl
    rw [this]
    exact JGram.jnum [] (natDigits n.toNat) (Or.inl rfl) (natDigits_ne_nil _)
      (natDigits_all_digit _)

mutual

theorem dumpsV_val (j : Json) : JGram JKind.val (dumpsV j) := by
  match j with
  | Json.null => rw [dumpsV]; exact JGram.jnull
  | Json.bool true => rw [dumpsV]; exact JGram.jtrue
  | Json.bool false => rw [dumpsV]; exact JGram.jfalse
  | Json.num n => rw [dumpsV]; exact intChars_val n
  | Json.str s =>
    rw [dumpsV]
    exact JGram.jstr (dumpStringBody s.data) (dumpStringBody_strBody s.data)
  | Json.arr [] => rw [dumpsV]; exact JGram.jarrNil
  | Json.arr (x :: xs) =>
    rw [dumpsV]
    exact JGram.jarrCons _ (dumpsItems_items x xs)
  | Json.obj [] => rw [dumpsV]; exact JGram.jofObj _ JGram.jobjNil
  | Json.obj (kv :: kvs) =>
    rw [dumpsV]
    exact JGram.jofObj _ (JGram.jobjCons _ (dumpsMembers_members kv kvs))
termination_by sizeOf j

theorem dumpsItems_items (x : Json) (xs : List Json) : JGram JKind.items (dumpsItems x xs) := by
  match xs with
  | [] => rw [dumpsItems]; exact JGram.itemsOne _ (dumpsV_val x)
  | y :: ys =>
    rw [dumpsItems]
    exact JGram.itemsCons _ _ (dumpsV_val x) (dumpsItems_items y ys)
termination_by 1 + sizeOf x + sizeOf xs

theorem dumpsMembers_members (kv : String × Json) (kvs : List (String × Json)) :
    JGram JKind.members (dumpsMembers kv kvs) := by
  match kv, kvs with
  | (k, v), [] =>
    rw [dumpsMembers]
    have hshape : dumpStringChars k ++ (':' :: ' ' :: dumpsV v) =
        quoteChar :: (dumpStringBody k.data ++ (quoteChar :: ':' :: ' ' :: dumpsV v)) := by
      simp [dumpStringChars]
    rw [hshape]
    exact JGram.memOne _ _ (dumpStringBody_strBody k.data) (dumpsV_val v)
  | (k, v), kv2 :: kvs2 =>
    rw [dumpsMembers]
    have hshape : (dumpStringChars k ++ (':' :: ' ' :: dumpsV v)) ++
        (',' :: ' ' :: dumpsMembers kv2 kvs2) =
        quoteChar :: (dumpStringBody k.data ++
          (quoteChar :: ':' :: ' ' :: (dumpsV v ++ (',' :: ' ' :: dumpsMembers kv2 kvs2)))) := by
      simp [dumpStringChars]
    rw [hshape]
    exact JGram.memCons _ _ _ (dumpStringBody_strBody k.data) (dumpsV_val v)
      (dumpsMembers_members kv2 kvs2)
termination_by 1 + sizeOf kv + sizeOf kvs

end

theorem dumpsV_objv (kvs : JsonObj) : JGram JKind.objv (dumpsV (Json.obj kvs)) := by
  match kvs with
  | [] => rw [dumpsV]; exact JGram.jobjNil
  | kv :: kvs2 =>
    rw [dumpsV]
    exact JGram.jobjCons _ (dumpsMembers_members kv kvs2)

theorem dumps_obj_isJsonObjectString (kvs : JsonObj) :
    IsJsonObjectString (Json.dumps (Json.obj kvs)) := by
  show JGram JKind.objv (String.mk (dumpsV (Json.obj kvs))).data
  exact dumpsV_objv kvs

theorem isPrefixOf_self (l : List Char) : l.isPrefixOf l = true := by
  induction l with
  | nil => rfl
  | cons c cs ih => simp [List.isPrefixOf, ih]

theorem isPrefixOf_cons_ne (p0 c : Char) (pt r : List Char) (h : c ≠ p0) :
    (p0 :: pt).isPrefixOf (c :: r) = false := by
  simp only [List.isPrefixOf, Bool.and_eq_false_iff]
  left
  exact beq_eq_false_iff_ne.mpr (fun he => h he.symm)

theorem pyReplace_nil (pat rep : List Char) : pyReplace pat rep [] = [] := by
  rw [pyReplace]

theorem pyReplace_append (p0 : Char) (pt rep base : List Char)
    (h : ∀ c ∈ base, c ≠ p0) :
    pyReplace (p0 :: pt) rep (base ++ (p0 :: pt)) = base ++ rep := by
  induction base with
  | nil =>
    rw [List.nil_append, pyReplace]
    rw [dif_pos ⟨List.cons_ne_nil p0 pt, isPrefixOf_self (p0 :: pt)⟩]
    have hdrop : (p0 :: pt).drop (p0 :: pt).length = [] := List.drop_length (p0 :: pt)
    rw [hdrop, pyReplace_nil, List.append_nil, List.nil_append]
  | cons b bs ih =>
    have hb : b ≠ p0 := h b (List.mem_cons_self b bs)
    rw [List.cons_append, pyReplace]
    rw [dif_neg]
    · rw [ih (fun c hc => h c (List.mem_cons_of_mem b hc))]
      rfl
    · intro hcon
      rw [isPrefixOf_cons_ne p0 b pt (bs ++ (p0 :: pt)) hb] at hcon
      exact absurd hcon.2 (by simp)

theorem digit_ne_plus (c : Char) (h : c.isDigit = true) : c ≠ '+' := by
  intro he
  subst he
  exact absurd h (by decide)

theorem isoBase_no_plus (t : PyDateTime) : ∀ c ∈ isoBase t, c ≠ '+' := by
  have hpad : ∀ w n, ∀ c ∈ padZeros w n, c ≠ '+' :=
    fun w n c hc => digit_ne_plus c (padZeros_all_digit w n c hc)
  unfold isoBase
  repeat' refine List.forall_mem_append.mpr ⟨?_, ?_⟩
  all_goals first
    | exact hpad _ _
    | decide
    | (intro c hc
       rw [List.eq_of_mem_replicate hc]
       decide)
    | (intro c hc
       exact digit_ne_plus c (natDigits_all_digit _ c hc))
    | (split
       · intro c hc
         simp at hc
       · intro c hc
         rcases List.mem_cons.mp hc with hc | hc
         · subst hc; decide
         · exact hpad 6 t.microsecond c hc)

/-- Applying the replacement of the source to `isoformat()` output swaps the
single trailing `+00:00` for `Z`. -/
theorem pyStrReplace_isoformat (t : PyDateTime) :
    pyStrReplace t.isoformat "+00:00" "Z" = String.mk (isoBase t ++ ['Z']) := by
  show String.mk (pyReplace ('+' :: ['0', '0', ':', '0', '0']) ['Z'] (isoBase t ++ plus00)) =
    String.mk (isoBase t ++ ['Z'])
  rw [show plus00 = '+' :: ['0', '0', ':', '0', '0'] from rfl]
  rw [pyReplace_append '+' ['0', '0', ':', '0', '0'] ['Z'] (isoBase t) (isoBase_no_plus t)]

theorem chompDigits_append (ds rest : List Char) (h : ∀ c ∈ ds, c.isDigit = true) :
    chompDigits ds.length (ds ++ rest) = some rest := by
  induction ds with
  | nil => rfl
  | cons c cs ih =>
    have hc : c.isDigit = true := h c (List.mem_cons_self c cs)
    simp only [List.length_cons, List.cons_append, chompDigits, hc, if_true]
    exact ih (fun x hx => h x (List.mem_cons_of_mem c hx))

theorem chompLit_cons (a : Char) (rest : List Char) : chompLit a (a :: rest) = some rest := by
  simp [chompLit]

theorem takeDigitsCount_append (ds : List Char) (h : ∀ c ∈ ds, c.isDigit = true)
    (c0 : Char) (hc : c0.isDigit = false) (r : List Char) :
    takeDigitsCount (ds ++ c0 :: r) = (ds.length, c0 :: r) := by
  induction ds with
  | nil => simp [takeDigitsCount, hc]
  | cons c cs ih =>
    have hcd : c.isDigit = true := h c (List.mem_cons_self c cs)
    have ih2 := ih (fun x hx => h x (List.mem_cons_of_mem c hx))
    simp only [List.cons_append, takeDigitsCount, hcd, if_true, List.length_cons]
    rw [show cs.append (c0 :: r) = cs ++ c0 :: r from rfl, ih2]

theorem chompDigits_padZeros (w n : Nat) (rest : List Char) (hw : 0 < w) (hn : n < 10 ^ w) :
    chompDigits w (padZeros w n ++ rest) = some rest := by
  have h := chompDigits_append (padZeros w n) rest (padZeros_all_digit w n)
  rwa [padZeros_length w n hw hn] at h

theorem chompDatePart_spec (y mo d : Nat) (hy : y < 10000) (hmo : mo < 100) (hd : d < 100)
    (rest : List Char) :
    chompDatePart (padZeros 4 y ++ '-' :: (padZeros 2 mo ++ '-' :: (padZeros 2 d ++ rest))) =
      some rest := by
  unfold chompDatePart
  rw [chompDigits_padZeros 4 y _ (by omega) (by omega), Option.some_bind, chompLit_cons,
    Option.some_bind, chompDigits_padZeros 2 mo _ (by omega) (by omega), Option.some_bind,
    chompLit_cons, Option.some_bind, chompDigits_padZeros 2 d _ (by omega) (by omega)]

theorem chompTimePart_spec (hh mm ss : Nat) (hhh : hh < 100) (hmm : mm < 100) (hss : ss < 100)
    (rest : List Char) :
    chompTimePart (padZeros 2 hh ++ ':' :: (padZeros 2 mm ++ ':' :: (padZeros 2 ss ++ rest))) =
      some rest := by
  unfold chompTimePart
  rw [chompDigits_padZeros 2 hh _ (by omega) (by omega), Option.some_bind, chompLit_cons,
    Option.some_bind, chompDigits_padZeros 2 mm _ (by omega) (by omega), Option.some_bind,
    chompLit_cons, Option.some_bind, chompDigits_padZeros 2 ss _ (by omega) (by omega)]

theorem chompFrac_z : chompFrac ['Z'] = some ['Z'] := by
  simp [chompFrac]

theorem chompFrac_frac (us : Nat) (hus : us < 1000000) :
    chompFrac ('.' :: (padZeros 6 us ++ ['Z'])) = some ['Z'] := by
  simp only [chompFrac, if_pos rfl]
  rw [takeDigitsCount_append (padZeros 6 us) (padZeros_all_digit 6 us) 'Z' (by decide) []]
  rw [padZeros_length 6 us (by omega) (by omega)]
  simp

theorem isoShape_zero (t : PyDateTime) (hms : t.microsecond = 0) :
    isoBase t ++ ['Z'] =
      padZeros 4 t.year ++ '-' :: (padZeros 2 t.month ++ '-' :: (padZeros 2 t.day ++
        'T' :: (padZeros 2 t.hour ++ ':' :: (padZeros 2 t.minute ++
          ':' :: (padZeros 2 t.second ++ ['Z']))))) := by
  simp [isoBase, hms, List.append_assoc]

theorem isoShape_frac (t : PyDateTime) (hms : t.microsecond ≠ 0) :
    isoBase t ++ ['Z'] =
      padZeros 4 t.year ++ '-' :: (padZeros 2 t.month ++ '-' :: (padZeros 2 t.day ++
        'T' :: (padZeros 2 t.hour ++ ':' :: (padZeros 2 t.minute ++
          ':' :: (padZeros 2 t.second ++ '.' :: (padZeros 6 t.microsecond ++ ['Z'])))))) := by
  simp [isoBase, hms, List.append_assoc]

theorem isIsoUtcZ_isoBase (t : PyDateTime) (hy : t.year < 10000) (hmo : t.month < 100)
    (hd : t.day < 100) (hho : t.hour < 100) (hmi : t.minute < 100) (hse : t.second < 100)
    (hus : t.microsecond < 1000000) :
    isIsoUtcZ (String.mk (isoBase t ++ ['Z'])) = true := by
  have hchain : isoScan (isoBase t ++ ['Z']) = some ['Z'] := by
    unfold isoScan
    by_cases hms : t.microsecond = 0
    · rw [isoShape_zero t hms,
        chompDatePart_spec t.year t.month t.day hy hmo hd _, Option.some_bind, chompLit_cons,
        Option.some_bind, chompTimePart_spec t.hour t.minute t.second hho hmi hse _,
        Option.some_bind, chompFrac_z]
    · rw [isoShape_frac t hms,
        chompDatePart_spec t.year t.month t.day hy hmo hd _, Option.some_bind, chompLit_cons,
        Option.some_bind, chompTimePart_spec t.hour t.minute t.second hho hmi hse _,
        Option.some_bind, chompFrac_frac t.microsecond hus]
  unfold isIsoUtcZ
  rw [show (String.mk (isoBase t ++ ['Z'])).data = isoBase t ++ ['Z'] from rfl, hchain]
  simp

theorem endsWithChars_concat (l : List Char) (c : Char) :
    endsWithChars (l ++ [c]) [c] = true := by
  unfold endsWithChars
  simp only [List.length_append, List.length_singleton, Nat.add_sub_cancel]
  rw [List.drop_left]
  exact beq_self_eq_true [c]

theorem endsWithChars_z_plus (l : List Char) :
    endsWithChars (l ++ ['Z']) plus00 = false := by
  cases hres : endsWithChars (l ++ ['Z']) plus00 with
  | false => rfl
  | true =>
    exfalso
    unfold endsWithChars at hres
    have heq := eq_of_beq hres
    have hk : (l ++ ['Z']).length - plus00.length ≤ l.length := by
      simp only [List.length_append, List.length_singleton, plus00, List.length_cons,
        List.length_nil]
      omega
    rw [List.drop_append_of_le_length hk] at heq
    have hlast := congrArg List.getLast? heq
    rw [List.getLast?_concat] at hlast
    rw [show plus00.getLast? = some '0' from rfl] at hlast
    exact absurd hlast (by decide)

/-! ## Helper lemmas about the embedded module -/

theorem log_event_fst (self : EventLogger)
    (publish : String → String → Except String PublishFuture)
    (event_type level : String) (data : Option JsonObj)
    (service correlation_id : Option String) (actor : Option JsonObj)
    (eventId freshCid : String) (now : PyDateTime) :
    (self.log_event publish event_type level data service correlation_id actor
      eventId freshCid now).1 =
      self._build_event event_type level data service correlation_id actor
        eventId freshCid now := by
  simp only [EventLogger.log_event]
  split <;> rfl

theorem init_ok_service_truthy (p tn ev sn cp : Option String) (env : EnvVars)
    (l : EventLogger) (h : EventLogger.init p tn ev sn cp env = Except.ok l) :
    l.service_name = pyOrOptStr sn env.LOG_SERVICE_NAME ∧
    truthyStr (pyOrOptStr sn env.LOG_SERVICE_NAME) = true := by
  simp only [EventLogger.init] at h
  split at h
  · rename_i hmiss
    have hl := (Except.ok.injEq _ _).mp h
    have hnil : List.filterMap
        (fun p => if truthyStr p.2 then none else some p.1)
        ([("LOG_GCP_PROJECT / project_id", pyOrOptStr p env.LOG_GCP_PROJECT),
          ("LOG_TOPIC / topic_name", pyOrOptStr tn (some (env.LOG_TOPIC.getD "events"))),
          ("LOG_ENVIRONMENT / environment", pyOrOptStr ev env.LOG_ENVIRONMENT),
          ("LOG_SERVICE_NAME / service_name", pyOrOptStr sn env.LOG_SERVICE_NAME),
          ("LOG_GCP_CREDENTIALS / credentials_path", pyOrOptStr cp env.LOG_GCP_CREDENTIALS)] :
          List (String × Option String)) = [] := List.isEmpty_iff.mp hmiss
    have hsvc := (List.filterMap_eq_nil_iff.mp hnil)
      ("LOG_SERVICE_NAME / service_name", pyOrOptStr sn env.LOG_SERVICE_NAME) (by simp)
    constructor
    · rw [← hl]
    · by_cases ht : truthyStr (pyOrOptStr sn env.LOG_SERVICE_NAME) = true
      · exact ht
      · rw [if_neg ht] at hsvc
        exact absurd hsvc (by simp)
  · exact absurd h (by simp)

/-! ## Claim theorems -/

set_option maxRecDepth 8192 in
/-- C1 (counterexample): constructing with none of the five settings supplied,
by parameter or environment, raises an error whose message does NOT list the
topic-name field: `topic_name` does not occur in the message, so the claim
that the message lists all five field names is false.  The topic falls back
to the default `"events"` inside `__init__`, so it is never reported
missing. -/
theorem C1_counterexample :
    EventLogger.init none none none none none emptyEnv =
      Except.error "Missing required config for EventLogger: LOG_GCP_PROJECT / project_id, LOG_ENVIRONMENT / environment, LOG_SERVICE_NAME / service_name, LOG_GCP_CREDENTIALS / credentials_path" ∧
    strContains "Missing required config for EventLogger: LOG_GCP_PROJECT / project_id, LOG_ENVIRONMENT / environment, LOG_SERVICE_NAME / service_name, LOG_GCP_CREDENTIALS / credentials_path" "topic_name" = false :=
  ⟨by rfl, by decide⟩

set_option maxRecDepth 8192 in
/-- C1 (amended): constructing with none of the five settings supplied raises
a configuration error that batch-lists, in one message, the four field names
that can actually be missing — project id, environment, service name and
credential path — and does not list the topic name, which defaults to
`"events"`. -/
theorem C1_amended_batch_error :
    EventLogger.init none none none none none emptyEnv =
      Except.error "Missing required config for EventLogger: LOG_GCP_PROJECT / project_id, LOG_ENVIRONMENT / environment, LOG_SERVICE_NAME / service_name, LOG_GCP_CREDENTIALS / credentials_path" ∧
    strContains "Missing required config for EventLogger: LOG_GCP_PROJECT / project_id, LOG_ENVIRONMENT / environment, LOG_SERVICE_NAME / service_name, LOG_GCP_CREDENTIALS / credentials_path" "project_id" = true ∧
    strContains "Missing required config for EventLogger: LOG_GCP_PROJECT / project_id, LOG_ENVIRONMENT / environment, LOG_SERVICE_NAME / service_name, LOG_GCP_CREDENTIALS / credentials_path" "environment" = true ∧
    strContains "Missing required config for EventLogger: LOG_GCP_PROJECT / project_id, LOG_ENVIRONMENT / environment, LOG_SERVICE_NAME / service_name, LOG_GCP_CREDENTIALS / credentials_path" "service_name" = true ∧
    strContains "Missing required config for EventLogger: LOG_GCP_PROJECT / project_id, LOG_ENVIRONMENT / environment, LOG_SERVICE_NAME / service_name, LOG_GCP_CREDENTIALS / credentials_path" "credentials_path" = true ∧
    strContains "Missing required config for EventLogger: LOG_GCP_PROJECT / project_id, LOG_ENVIRONMENT / environment, LOG_SERVICE_NAME / service_name, LOG_GCP_CREDENTIALS / credentials_path" "topic_name" = false :=
  ⟨by rfl, by decide, by decide, by decide, by decide, by decide⟩

/-- C2: whenever the transport publish raises during `log_event`, the call
returns normally with the fully built envelope and no future; no exception
propagates (the embedded `log_event` is total and the raising branch maps to
the `(event, none)` result). -/
theorem C2_publish_failure_recovered (self : EventLogger)
    (publish : String → String → Except String PublishFuture)
    (event_type level : String) (data : Option JsonObj)
    (service correlation_id : Option String) (actor : Option JsonObj)
    (eventId freshCid : String) (now : PyDateTime) (err : String)
    (hfail : publish self.topic_path
      (Json.dumps (self._build_event event_type level data service correlation_id actor
        eventId freshCid now).toJson) = Except.error err) :
    self.log_event publish event_type level data service correlation_id actor
      eventId freshCid now =
      (self._build_event event_type level data service correlation_id actor
        eventId freshCid now, none) := by
  simp only [EventLogger.log_event, hfail]

/-- C2 witness: a concrete raising transport exercises the theorem. -/
theorem C2_publish_failure_recovered_witness :
    failPublish sampleLogger.topic_path
      (Json.dumps ((sampleLogger._build_event "signup" "info" none none none none
        "eid-1" "cid-1" sampleDT).toJson)) = Except.error "boom" ∧
    sampleLogger.log_event failPublish "signup" "info" none none none none
      "eid-1" "cid-1" sampleDT =
      (sampleLogger._build_event "signup" "info" none none none none
        "eid-1" "cid-1" sampleDT, none) :=
  ⟨rfl, C2_publish_failure_recovered sampleLogger failPublish "signup" "info" none none none
    none "eid-1" "cid-1" sampleDT "boom" rfl⟩

/-- C3 (counterexample): supplying the empty string as `correlation_id` does
not put the supplied value in the envelope; the generated identifier is
substituted instead, because `correlation_id or str(uuid.uuid4())` treats the
empty string as falsy. -/
theorem C3_counterexample :
    (sampleLogger._build_event "signup" "info" none none (some "") none
      "eid-1" "fresh-cid" sampleDT).correlation_id = "fresh-cid" ∧
    ("fresh-cid" : String) ≠ "" :=
  ⟨rfl, by decide⟩

/-- C3 (amended): for every build call in which the caller supplies a
non-empty `correlation_id`, the envelope carries exactly the supplied value
with no generated identifier substituted. -/
theorem C3_correlation_id_preserved (self : EventLogger) (event_type level : String)
    (data : Option JsonObj) (service : Option String) (actor : Option JsonObj)
    (eventId freshCid : String) (now : PyDateTime) (cid : String) (hcid : cid ≠ "") :
    (self._build_event event_type level data service (some cid) actor
      eventId freshCid now).correlation_id = cid := by
  show pyOrStr (some cid) freshCid = cid
  simp only [pyOrStr, if_neg hcid]

/-- C3 witness: a concrete non-empty correlation id is preserved. -/
theorem C3_correlation_id_preserved_witness :
    ("abc" : String) ≠ "" ∧
    (sampleLogger._build_event "signup" "info" none none (some "abc") none
      "eid-1" "cid-1" sampleDT).correlation_id = "abc" :=
  ⟨by decide, C3_correlation_id_preserved sampleLogger "signup" "info" none none none
    "eid-1" "cid-1" sampleDT "abc" (by decide)⟩

/-- C4: for every build call the envelope's `actor` and `data` fields are
syntactically valid JSON object strings (they are always present, being
mandatory `String` fields of the envelope), and each equals the two-character
object text when the corresponding argument is omitted (`None`). -/
theorem C4_actor_data_valid_json (self : EventLogger) (event_type level : String)
    (data : Option JsonObj) (service correlation_id : Option String) (actor : Option JsonObj)
    (eventId freshCid : String) (now : PyDateTime) :
    IsJsonObjectString (self._build_event event_type level data service correlation_id actor
      eventId freshCid now).actor ∧
    IsJsonObjectString (self._build_event event_type level data service correlation_id actor
      eventId freshCid now).data ∧
    (self._build_event event_type level data service correlation_id none
      eventId freshCid now).actor = "\x7b\x7d" ∧
    (self._build_event event_type level none service correlation_id actor
      eventId freshCid now).data = "\x7b\x7d" := by
  refine ⟨dumps_obj_isJsonObjectString (pyOrObj actor),
    dumps_obj_isJsonObjectString (pyOrObj data), ?_, ?_⟩
  · show Json.dumps (Json.obj (pyOrObj none)) = "\x7b\x7d"
    show String.mk (dumpsV (Json.obj [])) = "\x7b\x7d"
    rw [show dumpsV (Json.obj []) = [lbrace, rbrace] from by rw [dumpsV]]
    rfl
  · show Json.dumps (Json.obj (pyOrObj none)) = "\x7b\x7d"
    show String.mk (dumpsV (Json.obj [])) = "\x7b\x7d"
    rw [show dumpsV (Json.obj []) = [lbrace, rbrace] from by rw [dumpsV]]
    rfl

/-- C5: every envelope's `created_at` has the UTC ISO-8601 Zulu shape, ends
with `Z` and does not end with `+00:00`, for any in-range wall-clock
reading. -/
theorem C5_created_at_utc_z (self : EventLogger) (event_type level : String)
    (data : Option JsonObj) (service correlation_id : Option String) (actor : Option JsonObj)
    (eventId freshCid : String) (now : PyDateTime)
    (hy : now.year < 10000) (hmo : now.month < 100) (hd : now.day < 100)
    (hho : now.hour < 100) (hmi : now.minute < 100) (hse : now.second < 100)
    (hus : now.microsecond < 1000000) :
    isIsoUtcZ (self._build_event event_type level data service correlation_id actor
      eventId freshCid now).created_at = true ∧
    strEndsWith (self._build_event event_type level data service correlation_id actor
      eventId freshCid now).created_at "Z" = true ∧
    strEndsWith (self._build_event event_type level data service correlation_id actor
      eventId freshCid now).created_at "+00:00" = false := by
  have hca : (self._build_event event_type level data service correlation_id actor
      eventId freshCid now).created_at = String.mk (isoBase now ++ ['Z']) :=
    pyStrReplace_isoformat now
  rw [hca]
  refine ⟨isIsoUtcZ_isoBase now hy hmo hd hho hmi hse hus, ?_, ?_⟩
  · show endsWithChars (isoBase now ++ ['Z']) ['Z'] = true
    exact endsWithChars_concat (isoBase now) 'Z'
  · show endsWithChars (isoBase now ++ ['Z']) plus00 = false
    exact endsWithChars_z_plus (isoBase now)

/-- C5 witness: a concrete in-range datetime exercises the theorem. -/
theorem C5_created_at_utc_z_witness :
    sampleDT.year < 10000 ∧ sampleDT.month < 100 ∧ sampleDT.day < 100 ∧
    sampleDT.hour < 100 ∧ sampleDT.minute < 100 ∧ sampleDT.second < 100 ∧
    sampleDT.microsecond < 1000000 ∧
    (isIsoUtcZ (sampleLogger._build_event "signup" "info" none none none none
      "eid-1" "cid-1" sampleDT).created_at = true ∧
    strEndsWith (sampleLogger._build_event "signup" "info" none none none none
      "eid-1" "cid-1" sampleDT).created_at "Z" = true ∧
    strEndsWith (sampleLogger._build_event "signup" "info" none none none none
      "eid-1" "cid-1" sampleDT).created_at "+00:00" = false) :=
  ⟨by decide, by decide, by decide, by decide, by decide, by decide, by decide,
    C5_created_at_utc_z sampleLogger "signup" "info" none none none none
      "eid-1" "cid-1" sampleDT (by decide) (by decide) (by decide) (by decide) (by decide)
      (by decide) (by decide)⟩

/-- C6: constructing with every required setting supplied except the topic
name succeeds, and the constructed facade uses the default topic name
`"events"`. -/
theorem C6_topic_defaults_to_events (pid envn sn cp : String)
    (h1 : pid ≠ "") (h2 : envn ≠ "") (h3 : sn ≠ "") (h4 : cp ≠ "") :
    ∃ l, EventLogger.init (some pid) none (some envn) (some sn) (some cp) emptyEnv =
      Except.ok l ∧ l.topic_name = some "events" := by
  simp [EventLogger.init, pyOrOptStr, truthyStr, emptyEnv, h1, h2, h3, h4]

/-- C6 witness: concrete non-empty settings exercise the theorem. -/
theorem C6_topic_defaults_to_events_witness :
    ("p" : String) ≠ "" ∧ ("prod" : String) ≠ "" ∧ ("svc" : String) ≠ "" ∧
    ("/creds" : String) ≠ "" ∧
    (∃ l, EventLogger.init (some "p") none (some "prod") (some "svc") (some "/creds")
      emptyEnv = Except.ok l ∧ l.topic_name = some "events") :=
  ⟨by decide, by decide, by decide, by decide,
    C6_topic_defaults_to_events "p" "prod" "svc" "/creds" (by decide) (by decide) (by decide)
      (by decide)⟩

/-- C7: each leveled convenience method produces an envelope whose `level`
field equals the method name. -/
theorem C7_leveled_methods_set_level (self : EventLogger)
    (publish : String → String → Except String PublishFuture) (event_type : String)
    (correlation_id : Option String) (data : Option JsonObj) (actor : Option JsonObj)
    (service : Option String) (eventId freshCid : String) (now : PyDateTime) :
    (self.debug publish event_type correlation_id data actor service
      eventId freshCid now).1.level = "debug" ∧
    (self.info publish event_type correlation_id data actor service
      eventId freshCid now).1.level = "info" ∧
    (self.warning publish event_type correlation_id data actor service
      eventId freshCid now).1.level = "warning" ∧
    (self.error publish event_type correlation_id data actor service
      eventId freshCid now).1.level = "error" := by
  refine ⟨?_, ?_, ?_, ?_⟩
  · unfold EventLogger.debug
    rw [log_event_fst]
    rfl
  · unfold EventLogger.info
    rw [log_event_fst]
    rfl
  · unfold EventLogger.warning
    rw [log_event_fst]
    rfl
  · unfold EventLogger.error
    rw [log_event_fst]
    rfl

/-- C8: with no prior initialize call the singleton accessor returns the
no-op facade, and every method call on a no-op facade returns the empty dict
and no future without any error (the embedded call is total). -/
theorem C8_uninitialized_noop :
    get_event_logger none = ActiveLogger.noop ⟨⟩ ∧
    ∀ (n : NoOpEventLogger) (method : String) (args : List Json),
      n.call method args = (Json.obj [], none) :=
  ⟨rfl, fun _ _ _ => rfl⟩

set_option maxRecDepth 8192 in
/-- C9 (counterexample): on a successfully constructed facade, supplying the
empty string as the service override does not put the supplied value in the
envelope; the facade default is substituted, because `service or
self.service_name` treats the empty string as falsy. -/
theorem C9_counterexample :
    EventLogger.init (some "p") none (some "prod") (some "svc") (some "/creds") emptyEnv =
      Except.ok sampleLogger ∧
    (sampleLogger._build_event "signup" "info" none (some "") none none
      "eid-1" "cid-1" sampleDT).service = some "svc" ∧
    (some "svc" : Option String) ≠ some "" :=
  ⟨by rfl, rfl, by decide⟩

/-- C9 (amended): every envelope produced by a successfully constructed
facade carries a non-empty `service` string; it equals the caller override
whenever a non-empty override is supplied, and the facade default service
name when no override is supplied. -/
theorem C9_service_nonempty (p tn ev sn cp : Option String) (env : EnvVars)
    (l : EventLogger) (h : EventLogger.init p tn ev sn cp env = Except.ok l)
    (event_type level : String) (data : Option JsonObj) (service : Option String)
    (correlation_id : Option String) (actor : Option JsonObj)
    (eventId freshCid : String) (now : PyDateTime) :
    ∃ s, (l._build_event event_type level data service correlation_id actor
        eventId freshCid now).service = some s ∧ s ≠ "" ∧
      (∀ x, service = some x → x ≠ "" → s = x) ∧
      (service = none → l.service_name = some s) := by
  obtain ⟨hsn, htr⟩ := init_ok_service_truthy p tn ev sn cp env l h
  rw [← hsn] at htr
  have hserv : (l._build_event event_type level data service correlation_id actor
      eventId freshCid now).service = pyOrOptStr service l.service_name := rfl
  cases hsval : l.service_name with
  | none => rw [hsval] at htr; exact absurd htr (by simp [truthyStr])
  | some s0 =>
    have hs0 : s0 ≠ "" := by
      rw [hsval] at htr
      intro hc
      rw [hc] at htr
      simp [truthyStr] at htr
    cases service with
    | none =>
      refine ⟨s0, ?_, hs0, ?_, ?_⟩
      · rw [hserv, hsval]; rfl
      · intro x hx
        exact absurd hx (by simp)
      · intro _
        rfl
    | some v =>
      by_cases hv : v = ""
      · subst hv
        refine ⟨s0, ?_, hs0, ?_, ?_⟩
        · rw [hserv, hsval]
          simp [pyOrOptStr]
        · intro x hx hxne
          exact absurd ((Option.some.injEq _ _).mp hx).symm hxne
        · intro hc
          exact absurd hc (by simp)
      · refine ⟨v, ?_, hv, ?_, ?_⟩
        · rw [hserv]
          simp [pyOrOptStr, hv]
        · intro x hx _
          exact (Option.some.injEq _ _).mp hx
        · intro hc
          exact absurd hc (by simp)

set_option maxRecDepth 8192 in
/-- C9 witness: a concrete constructed facade exercises the amended
theorem. -/
theorem C9_service_nonempty_witness :
    EventLogger.init (some "p") none (some "prod") (some "svc") (some "/creds") emptyEnv =
      Except.ok sampleLogger ∧
    (∃ s, (sampleLogger._build_event "signup" "info" none none none none
        "eid-1" "cid-1" sampleDT).service = some s ∧ s ≠ "" ∧
      (∀ x, (none : Option String) = some x → x ≠ "" → s = x) ∧
      ((none : Option String) = none → sampleLogger.service_name = some s)) :=
  ⟨by rfl,
    C9_service_nonempty (some "p") none (some "prod") (some "svc") (some "/creds") emptyEnv
      sampleLogger (by rfl) "signup" "info" none none none none "eid-1" "cid-1" sampleDT⟩

/-- C10: if facade construction raises inside `init_event_logger`, the
process-wide holder is left unchanged, and in particular with no previously
installed facade the accessor still returns the no-op facade. -/
theorem C10_init_atomic_on_error (p tn ev sn cp : Option String) (env : EnvVars)
    (st : Option EventLogger) (e : String)
    (h : EventLogger.init p tn ev sn cp env = Except.error e) :
    (init_event_logger p tn ev sn cp env st).1 = st ∧
    (st = none →
      get_event_logger (init_event_logger p tn ev sn cp env st).1 = ActiveLogger.noop ⟨⟩) := by
  unfold init_event_logger
  rw [h]
  exact ⟨rfl, fun hst => by subst hst; rfl⟩

set_option maxRecDepth 8192 in
/-- C10 witness: a concrete failing construction with an empty holder
exercises the theorem. -/
theorem C10_init_atomic_on_error_witness :
    EventLogger.init none none none none none emptyEnv =
      Except.error "Missing required config for EventLogger: LOG_GCP_PROJECT / project_id, LOG_ENVIRONMENT / environment, LOG_SERVICE_NAME / service_name, LOG_GCP_CREDENTIALS / credentials_path" ∧
    ((init_event_logger none none none none none emptyEnv none).1 = none ∧
      ((none : Option EventLogger) = none →
        get_event_logger (init_event_logger none none none none none emptyEnv none).1 =
          ActiveLogger.noop ⟨⟩)) :=
  ⟨by rfl,
    C10_init_atomic_on_error none none none none none emptyEnv none
      "Missing required config for EventLogger: LOG_GCP_PROJECT / project_id, LOG_ENVIRONMENT / environment, LOG_SERVICE_NAME / service_name, LOG_GCP_CREDENTIALS / credentials_path"
      (by rfl)⟩
